import Mathlib

/-!
Verification of the Agenda repository (src/main.py): a FastAPI scheduling
assistant whose `chat` endpoint orchestrates Gemini function calling over
four Google-Calendar tool functions.

The embedding models Python values as `PyObj`, `json.loads` as an executable
JSON parser, the calendar backend and the language-model provider as oracles
(`Gateway`, `ChatDeps.provider`), and the endpoint bodies as total Lean
functions returning `Except` results together with a trace of observable
events (provider calls, tool executions, gateway operations).
-/

namespace Agenda

/-- A Python value, as producible by `json.loads` and passed around by the
tool functions.  Floats keep their source lexeme (their numeric value is
never used by the code under verification). -/
inductive PyObj where
  | none
  | bool (b : Bool)
  | int (n : Int)
  | float (lexeme : String)
  | str (s : String)
  | list (xs : List PyObj)
  | dict (kvs : List (String × PyObj))

/-- Python exception kinds raised by the embedded code paths. -/
inductive PyErr where
  | typeError
  | keyError
  | attributeError
  | indexError
deriving DecidableEq

def pyErrStr : PyErr → String
  | .typeError => "TypeError"
  | .keyError => "KeyError"
  | .attributeError => "AttributeError"
  | .indexError => "IndexError"

/-- First-match lookup in a Python dict represented as an association list. -/
def dictFind (kvs : List (String × PyObj)) (k : String) : Option PyObj :=
  match kvs.find? (fun kv => kv.1 == k) with
  | some kv => some kv.2
  | Option.none => Option.none

/-- Insert-or-replace, mirroring Python dict assignment (first occurrence
keeps its position, value replaced). -/
def setKey : List (String × PyObj) → String → PyObj → List (String × PyObj)
  | [], k, v => [(k, v)]
  | kv :: rest, k, v =>
    if kv.1 == k then (k, v) :: rest else kv :: setKey rest k v

-- ---------------------------------------------------------------------------
-- json.loads, embedded as an executable JSON parser (Python `json` accepts
-- the literals NaN / Infinity / -Infinity in addition to RFC JSON).
-- ---------------------------------------------------------------------------

def braceL : Char := Char.ofNat 123

def braceR : Char := Char.ofNat 125

def skipWs : List Char → List Char
  | [] => []
  | c :: cs =>
    if c == ' ' || c == '\t' || c == '\n' || c == '\r' then skipWs cs
    else c :: cs

def charsStart : List Char → List Char → Bool
  | [], _ => true
  | _ :: _, [] => false
  | p :: ps, c :: cs => p == c && charsStart ps cs

/-- Substring test on character lists (Python `key in someString`). -/
def charsSub (p : List Char) : List Char → Bool
  | [] => p.isEmpty
  | c :: cs => charsStart p (c :: cs) || charsSub p cs

def stripLit (lit : List Char) (cs : List Char) : Option (List Char) :=
  if charsStart lit cs then some (cs.drop lit.length) else Option.none

def hexVal (c : Char) : Option Nat :=
  let n := c.toNat
  if 48 ≤ n ∧ n ≤ 57 then some (n - 48)
  else if 97 ≤ n ∧ n ≤ 102 then some (n - 87)
  else if 65 ≤ n ∧ n ≤ 70 then some (n - 55)
  else Option.none

def escChar (e : Char) : Option Char :=
  if e == '"' then some '"'
  else if e == '\\' then some '\\'
  else if e == '/' then some '/'
  else if e == 'b' then some (Char.ofNat 8)
  else if e == 'f' then some (Char.ofNat 12)
  else if e == 'n' then some (Char.ofNat 10)
  else if e == 'r' then some (Char.ofNat 13)
  else if e == 't' then some (Char.ofNat 9)
  else Option.none

/-- The body of a JSON string literal.  Python `json.loads` runs in strict
mode by default: a raw (unescaped) control character (code point below
0x20) inside a string literal is a parse error, not data. -/
def parseStrRest : List Char → List Char → Except Unit (String × List Char)
  | [], _ => .error ()
  | c :: cs, acc =>
    if c == '"' then .ok (String.mk acc.reverse, cs)
    else if c == '\\' then
      match cs with
      | [] => .error ()
      | e :: cs2 =>
        if e == 'u' then
          match cs2 with
          | h1 :: h2 :: h3 :: h4 :: cs3 =>
            match hexVal h1, hexVal h2, hexVal h3, hexVal h4 with
            | some a, some b, some x, some y =>
                parseStrRest cs3 (Char.ofNat (((a * 16 + b) * 16 + x) * 16 + y) :: acc)
            | _, _, _, _ => .error ()
          | _ => .error ()
        else
          match escChar e with
          | some r => parseStrRest cs2 (r :: acc)
          | Option.none => .error ()
    else if c.toNat < 32 then .error ()
    else parseStrRest cs (c :: acc)

def takeDigits : List Char → List Char × List Char
  | [] => ([], [])
  | c :: cs =>
    if c.isDigit then
      let r := takeDigits cs
      (c :: r.1, r.2)
    else ([], c :: cs)

def digitsToNat (ds : List Char) : Nat :=
  ds.foldl (fun a c => a * 10 + (c.toNat - 48)) 0

def intOfDigits (sgn : List Char) (ds : List Char) : Int :=
  if sgn.isEmpty then Int.ofNat (digitsToNat ds) else - Int.ofNat (digitsToNat ds)

def parseExpTail (sgn mant : List Char) (e : Char) (cs : List Char) :
    Except Unit (PyObj × List Char) :=
  let p := match cs with
    | '+' :: r => (['+'], r)
    | '-' :: r => (['-'], r)
    | _ => ([], cs)
  let q := takeDigits p.2
  if q.1.isEmpty then .error ()
  else .ok (.float (String.mk (sgn ++ mant ++ e :: p.1 ++ q.1)), q.2)

def parseNumber (cs : List Char) : Except Unit (PyObj × List Char) :=
  let p := match cs with
    | '-' :: r => ((['-'] : List Char), r)
    | _ => (([] : List Char), cs)
  match p.2 with
  | [] => .error ()
  | c :: _ =>
    if !c.isDigit then .error ()
    else
      let q := takeDigits p.2
      if q.1.length ≥ 2 && charsStart ['0'] q.1 then .error ()
      else
        match q.2 with
        | '.' :: cs3 =>
          let f := takeDigits cs3
          if f.1.isEmpty then .error ()
          else
            match f.2 with
            | e :: cs5 =>
              if e == 'e' || e == 'E' then parseExpTail p.1 (q.1 ++ '.' :: f.1) e cs5
              else .ok (.float (String.mk (p.1 ++ q.1 ++ '.' :: f.1)), f.2)
            | [] => .ok (.float (String.mk (p.1 ++ q.1 ++ '.' :: f.1)), [])
        | e :: cs3 =>
          if e == 'e' || e == 'E' then parseExpTail p.1 q.1 e cs3
          else .ok (.int (intOfDigits p.1 q.1), q.2)
        | [] => .ok (.int (intOfDigits p.1 q.1), [])

mutual

def parseVal : Nat → List Char → Except Unit (PyObj × List Char)
  | 0, _ => .error ()
  | fuel + 1, cs =>
    match cs with
    | [] => .error ()
    | c :: rest =>
      if c == 'n' then
        match stripLit "null".data cs with
        | some r => .ok (.none, r)
        | Option.none => .error ()
      else if c == 't' then
        match stripLit "true".data cs with
        | some r => .ok (.bool true, r)
        | Option.none => .error ()
      else if c == 'f' then
        match stripLit "false".data cs with
        | some r => .ok (.bool false, r)
        | Option.none => .error ()
      else if c == 'N' then
        match stripLit "NaN".data cs with
        | some r => .ok (.float "NaN", r)
        | Option.none => .error ()
      else if c == 'I' then
        match stripLit "Infinity".data cs with
        | some r => .ok (.float "Infinity", r)
        | Option.none => .error ()
      else if c == '"' then
        match parseStrRest rest [] with
        | .ok sr => .ok (.str sr.1, sr.2)
        | .error _ => .error ()
      else if c == '[' then
        match skipWs rest with
        | ']' :: r => .ok (.list [], r)
        | cs1 =>
          match parseArrayRest fuel cs1 [] with
          | .ok xr => .ok (.list xr.1, xr.2)
          | .error _ => .error ()
      else if c == braceL then
        match skipWs rest with
        | [] => .error ()
        | x :: r =>
          if x == braceR then .ok (.dict [], r)
          else
            match parseObjRest fuel (x :: r) [] with
            | .ok kr => .ok (.dict kr.1, kr.2)
            | .error _ => .error ()
      else if c == '-' then
        match stripLit "-Infinity".data cs with
        | some r => .ok (.float "-Infinity", r)
        | Option.none => parseNumber cs
      else if c.isDigit then parseNumber cs
      else .error ()

def parseArrayRest : Nat → List Char → List PyObj → Except Unit (List PyObj × List Char)
  | 0, _, _ => .error ()
  | fuel + 1, cs, acc =>
    match parseVal fuel cs with
    | .error _ => .error ()
    | .ok vr =>
      match skipWs vr.2 with
      | ',' :: r2 => parseArrayRest fuel (skipWs r2) (acc ++ [vr.1])
      | ']' :: r2 => .ok (acc ++ [vr.1], r2)
      | _ => .error ()

def parseObjRest : Nat → List Char → List (String × PyObj) →
    Except Unit (List (String × PyObj) × List Char)
  | 0, _, _ => .error ()
  | fuel + 1, cs, acc =>
    match cs with
    | [] => .error ()
    | c :: rest =>
      if c == '"' then
        match parseStrRest rest [] with
        | .error _ => .error ()
        | .ok kr =>
          match skipWs kr.2 with
          | ':' :: r2 =>
            match parseVal fuel (skipWs r2) with
            | .error _ => .error ()
            | .ok vr =>
              match skipWs vr.2 with
              | ',' :: r4 => parseObjRest fuel (skipWs r4) (setKey acc kr.1 vr.1)
              | x :: r4 =>
                if x == braceR then .ok (setKey acc kr.1 vr.1, r4) else .error ()
              | [] => .error ()
          | _ => .error ()
      else .error ()

end

/-- Embedding of Python `json.loads`: parse the whole string, rejecting
trailing garbage.  The fuel is amply above the maximal recursion depth a
string of this length can force. -/
def json_loads (s : String) : Except Unit PyObj :=
  match parseVal (2 * s.length + 2) (skipWs s.data) with
  | .error _ => .error ()
  | .ok vr =>
    match skipWs vr.2 with
    | [] => .ok vr.1
    | _ => .error ()

-- ---------------------------------------------------------------------------
-- Python operator semantics used by main.py
-- ---------------------------------------------------------------------------

/-- Python truthiness (`if history`, `start_datetime if start_datetime else`).
For floats, the lexeme denotes zero iff its mantissa digits are all zero. -/
def floatIsZero (s : String) : Bool :=
  let mant := s.data.takeWhile (fun c => !(c == 'e' || c == 'E'))
  mant.any (fun c => c.isDigit) && mant.all (fun c => !c.isDigit || c == '0')

def pyTruthy : PyObj → Bool
  | .none => false
  | .bool b => b
  | .int n => !(n == 0)
  | .float s => floatIsZero s == false
  | .str s => !(s == "")
  | .list xs => !xs.isEmpty
  | .dict kvs => !kvs.isEmpty

/-- Python `key in obj` for a string key: key membership on dicts, substring
test on strings, element equality on lists, `TypeError` otherwise. -/
def pyContains (key : String) : PyObj → Except PyErr Bool
  | .dict kvs => .ok (dictFind kvs key).isSome
  | .str s => .ok (charsSub key.data s.data)
  | .list xs => .ok (xs.any (fun x => match x with | .str t => t == key | _ => false))
  | _ => .error .typeError

/-- Python `obj[key]` for a string key. -/
def pySubscript (o : PyObj) (key : String) : Except PyErr PyObj :=
  match o with
  | .dict kvs =>
    match dictFind kvs key with
    | some v => .ok v
    | Option.none => .error .keyError
  | _ => .error .typeError

/-- Python `for x in obj`: the sequence iterated over, or `TypeError`. -/
def pyIter : PyObj → Except PyErr (List PyObj)
  | .list xs => .ok xs
  | .str s => .ok (s.data.map (fun c => PyObj.str (String.mk [c])))
  | .dict kvs => .ok (kvs.map (fun kv => PyObj.str kv.1))
  | _ => .error .typeError

/-- Python `str(obj)`, to the precision the embedded error messages need. -/
def pyStr : PyObj → String
  | .none => "None"
  | .bool true => "True"
  | .bool false => "False"
  | .int n => toString n
  | .float s => s
  | .str s => s
  | .list _ => "[list]"
  | .dict _ => "[dict]"

-- ---------------------------------------------------------------------------
-- Conversation turns (google.genai Content values, as main.py builds them)
-- ---------------------------------------------------------------------------

/-- One `Content` entry of the conversation sent to the provider:
`turn` is `Content(role=r, parts=[Part(text=t)])`; `model` is the opaque
`response.candidates[0].content` blob echoed back; `toolMsg` is the
tool-role turn built with `Part.from_function_response`. -/
inductive Content where
  | turn (role : PyObj) (text : PyObj)
  | model (tag : String)
  | toolMsg (name : String) (response : PyObj)

def userTurn (q : String) : Content := Content.turn (.str "user") (.str q)

-- ---------------------------------------------------------------------------
-- History normalization (main.py lines 286-309)
-- ---------------------------------------------------------------------------

/-- The `for turn in history_data` loop: retain a turn iff `'role' in turn`
and `'text' in turn` (short-circuit), building `Content` from the two
subscripts; Python exceptions propagate. -/
def historyLoop : List PyObj → List Content → Except PyErr (List Content)
  | [], acc => .ok acc
  | turn :: rest, acc =>
    match pyContains "role" turn with
    | .error e => .error e
    | .ok false => historyLoop rest acc
    | .ok true =>
      match pyContains "text" turn with
      | .error e => .error e
      | .ok false => historyLoop rest acc
      | .ok true =>
        match pySubscript turn "role" with
        | .error e => .error e
        | .ok r =>
          match pySubscript turn "text" with
          | .error e => .error e
          | .ok t => historyLoop rest (acc ++ [Content.turn r t])

/-- The history-processing block of `chat`: skipped for falsy or `'null'`
history; `json.JSONDecodeError` is caught (yielding no prior turns); any
other exception propagates out of the request handler. -/
def normalizeHistory (history : Option String) : Except PyErr (List Content) :=
  match history with
  | Option.none => .ok []
  | some h =>
    if h != "" && h != "null" then
      match json_loads h with
      | .error _ => .ok []
      | .ok data =>
        match pyIter data with
        | .error e => .error e
        | .ok items => historyLoop items []
    else .ok []

/-- History normalization followed by appending the current query as the
final user turn (main.py lines 286-309). -/
def buildConversation (history : Option String) (query : String) :
    Except PyErr (List Content) :=
  match normalizeHistory history with
  | .error e => .error e
  | .ok turns => .ok (turns ++ [userTurn query])

-- ---------------------------------------------------------------------------
-- Calendar Gateway oracle and observable events
-- ---------------------------------------------------------------------------

/-- The Google Calendar backend as an oracle: each operation either returns
a value or raises (modelled as `.error` with the exception text). -/
structure Gateway where
  listEvents : PyObj → PyObj → PyObj → Except String (List PyObj)
  insertEvent : PyObj → Except String PyObj
  deleteEvent : PyObj → Except String Unit
  getEvent : PyObj → Except String PyObj
  updateEvent : PyObj → PyObj → Except String PyObj

/-- Observable events of one request: provider (Gemini) calls, tool-function
executions, and individual Calendar Gateway operations. -/
inductive Event where
  | providerCall
  | toolExec (name : String) (args : List (String × PyObj))
  | gwList (timeMin timeMax maxResults : PyObj)
  | gwInsert (body : PyObj)
  | gwDelete (event_id : PyObj)
  | gwGet (event_id : PyObj)
  | gwUpdate (event_id : PyObj)

def errDict (msg : String) : PyObj := .dict [("error", .str msg)]

def cfgErrMsg : String := "Serviço de calendário não configurado ou inacessível."

-- ---------------------------------------------------------------------------
-- Tool functions (main.py lines 91-202).  `svc` is `get_calendar_service()`.
-- ---------------------------------------------------------------------------

/-- `format_event`: subscripts `e["start"]`, then `.get("dateTime",
e["start"].get("date"))`; exceptions propagate to the caller's `try`. -/
def format_event (e : PyObj) : Except PyErr PyObj :=
  match e with
  | .dict kvs =>
    match dictFind kvs "start" with
    | Option.none => .error .keyError
    | some st =>
      match st with
      | .dict skvs =>
        let start := (dictFind skvs "dateTime").getD ((dictFind skvs "date").getD PyObj.none)
        .ok (.dict [("summary", (dictFind kvs "summary").getD (.str "Sem título")),
                    ("start", start),
                    ("event_id", (dictFind kvs "id").getD PyObj.none)])
      | _ => .error .attributeError
  | _ => .error .typeError

/-- `list_calendar_events`: defaults `time_min` to now (UTC, `"Z"` suffix)
when `start_datetime` is falsy; any exception in the `try` becomes a
one-element error list. -/
def list_calendar_events (svc : Option Gateway) (nowIso : String)
    (max_results start_datetime end_datetime : PyObj) : List PyObj × List Event :=
  match svc with
  | Option.none => ([errDict cfgErrMsg], [])
  | some gw =>
    let timeMin := if pyTruthy start_datetime then start_datetime else .str (nowIso ++ "Z")
    let timeMax := if pyTruthy end_datetime then end_datetime else PyObj.none
    match gw.listEvents timeMin timeMax max_results with
    | .error e =>
      ([errDict ("Erro ao listar eventos no Google Calendar: " ++ e)],
       [.gwList timeMin timeMax max_results])
    | .ok items =>
      match items.mapM format_event with
      | .error pe =>
        ([errDict ("Erro ao listar eventos no Google Calendar: " ++ pyErrStr pe)],
         [.gwList timeMin timeMax max_results])
      | .ok evs => (evs, [.gwList timeMin timeMax max_results])

/-- `add_calendar_event`: builds the event body and inserts it; failures
become an error dict. -/
def add_calendar_event (svc : Option Gateway)
    (summary start_datetime end_datetime timezone : PyObj) : PyObj × List Event :=
  match svc with
  | Option.none => (errDict cfgErrMsg, [])
  | some gw =>
    let body := PyObj.dict
      [("summary", summary),
       ("start", .dict [("dateTime", start_datetime), ("timeZone", timezone)]),
       ("end", .dict [("dateTime", end_datetime), ("timeZone", timezone)])]
    match gw.insertEvent body with
    | .error e => (errDict ("Erro ao criar evento: " ++ e), [.gwInsert body])
    | .ok ev =>
      match ev with
      | .dict kvs =>
        (.dict [("created", .bool true),
                ("event_id", (dictFind kvs "id").getD PyObj.none),
                ("summary", (dictFind kvs "summary").getD PyObj.none)],
         [.gwInsert body])
      | _ => (errDict ("Erro ao criar evento: " ++ pyErrStr .attributeError), [.gwInsert body])

/-- `delete_calendar_event`: deletes by opaque id; a gateway exception is
caught and returned as an error dict, never raised. -/
def delete_calendar_event (svc : Option Gateway) (event_id : PyObj) : PyObj × List Event :=
  match svc with
  | Option.none => (errDict cfgErrMsg, [])
  | some gw =>
    match gw.deleteEvent event_id with
    | .ok _ =>
      (.dict [("deleted", .bool true), ("event_id", event_id),
              ("message", .str "Evento excluído com sucesso.")],
       [.gwDelete event_id])
    | .error e =>
      (errDict ("Erro ao excluir evento (ID: " ++ pyStr event_id ++ "): " ++ e),
       [.gwDelete event_id])

/-- `modify_calendar_event`: fetches the existing event, applies the
non-`None` field updates, and sends the update; failures become error
dicts. -/
def modify_calendar_event (svc : Option Gateway)
    (event_id summary start_datetime end_datetime timezone : PyObj) : PyObj × List Event :=
  match svc with
  | Option.none => (errDict cfgErrMsg, [])
  | some gw =>
    let failMsg := fun (e : String) =>
      errDict ("Erro ao modificar evento (ID: " ++ pyStr event_id ++ "): " ++ e)
    match gw.getEvent event_id with
    | .error e => (failMsg e, [.gwGet event_id])
    | .ok existing =>
      match existing with
      | .dict kvs0 =>
        let kvs1 := match summary with
          | PyObj.none => kvs0
          | s => setKey kvs0 "summary" s
        let kvs2 := match start_datetime with
          | PyObj.none => kvs1
          | s => setKey kvs1 "start" (.dict [("dateTime", s), ("timeZone", timezone)])
        let kvs3 := match end_datetime with
          | PyObj.none => kvs2
          | s => setKey kvs2 "end" (.dict [("dateTime", s), ("timeZone", timezone)])
        match gw.updateEvent event_id (.dict kvs3) with
        | .error e => (failMsg e, [.gwGet event_id, .gwUpdate event_id])
        | .ok updated =>
          match updated with
          | .dict ukvs =>
            (.dict [("modified", .bool true), ("event_id", event_id),
                    ("new_summary", (dictFind ukvs "summary").getD PyObj.none)],
             [.gwGet event_id, .gwUpdate event_id])
          | _ => (failMsg (pyErrStr .attributeError), [.gwGet event_id, .gwUpdate event_id])
      | _ => (failMsg (pyErrStr .typeError), [.gwGet event_id])

-- ---------------------------------------------------------------------------
-- Gemini provider oracle and the chat orchestration (main.py lines 248-399)
-- ---------------------------------------------------------------------------

/-- One `generate_content` response: the (possibly empty) list of requested
function calls, the `.text` answer, and the opaque
`response.candidates[0].content`. -/
structure FunctionCall where
  name : String
  args : List (String × PyObj)

structure GenResponse where
  function_calls : List FunctionCall
  text : String
  candidateContent : Content

/-- Per-request dependencies: configuration, the calendar service handle,
current UTC time, and the provider as an oracle from the submitted
conversation to a response (or an `APIError`). -/
structure ChatDeps where
  apiToken : String
  geminiConfigured : Bool
  calendarService : Option Gateway
  nowIso : String
  provider : List Content → Except String GenResponse

/-- HTTP-level failure of a request: either an `HTTPException` the handler
raises itself, or an exception escaping the handler (`uncaught`). -/
inductive HttpErr where
  | unauthorized
  | configError (detail : String)
  | apiError (detail : String)
  | internalAgent (detail : String)
  | http500 (detail : PyObj)
  | uncaught (e : PyErr)

structure ChatOk where
  answer : String
  function_used : Option String

def USER_TIMEZONE : String := "America/Sao_Paulo"

/-- Whether every supplied keyword argument is a declared parameter
(`f(**args)` raises `TypeError` on an unexpected keyword). -/
def argKeysOk (args : List (String × PyObj)) (allowed : List String) : Bool :=
  args.all (fun kv => allowed.contains kv.1)

def getArg (args : List (String × PyObj)) (k : String) (dflt : PyObj) : PyObj :=
  (dictFind args k).getD dflt

/-- The tool-dispatch block of `chat`: selects the Python function by name,
binds `**args` (a missing required argument or unexpected keyword raises
`TypeError`), and runs it.  An unknown name yields the error dict without
executing anything. -/
def dispatch (svc : Option Gateway) (nowIso : String) (name : String)
    (args : List (String × PyObj)) : Except PyErr (PyObj × List Event) :=
  if name == "list_calendar_events" then
    if argKeysOk args ["max_results", "start_datetime", "end_datetime"] then
      let r := list_calendar_events svc nowIso (getArg args "max_results" (.int 10))
        (getArg args "start_datetime" PyObj.none) (getArg args "end_datetime" PyObj.none)
      .ok (.list r.1, .toolExec name args :: r.2)
    else .error .typeError
  else if name == "add_calendar_event" then
    match dictFind args "summary", dictFind args "start_datetime",
        dictFind args "end_datetime" with
    | some su, some sd, some ed =>
      if argKeysOk args ["summary", "start_datetime", "end_datetime", "timezone"] then
        let r := add_calendar_event svc su sd ed (getArg args "timezone" (.str USER_TIMEZONE))
        .ok (r.1, .toolExec name args :: r.2)
      else .error .typeError
    | _, _, _ => .error .typeError
  else if name == "delete_calendar_event" then
    match dictFind args "event_id" with
    | Option.none => .error .typeError
    | some eid =>
      if argKeysOk args ["event_id"] then
        let r := delete_calendar_event svc eid
        .ok (r.1, .toolExec name args :: r.2)
      else .error .typeError
  else if name == "modify_calendar_event" then
    match dictFind args "event_id" with
    | Option.none => .error .typeError
    | some eid =>
      if argKeysOk args ["event_id", "summary", "start_datetime", "end_datetime", "timezone"] then
        let r := modify_calendar_event svc eid (getArg args "summary" PyObj.none)
          (getArg args "start_datetime" PyObj.none) (getArg args "end_datetime" PyObj.none)
          (getArg args "timezone" (.str USER_TIMEZONE))
        .ok (r.1, .toolExec name args :: r.2)
      else .error .typeError
  else .ok (errDict ("Função desconhecida: " ++ name), [])

/-- The `/chat` endpoint (main.py lines 248-399): auth check, client check,
history normalization, first provider call, optional single tool dispatch,
second provider call with the tool result appended, and the final answer.
The second component is the trace of observable events. -/
def chat (d : ChatDeps) (query token : String) (history : Option String) :
    Except HttpErr ChatOk × List Event :=
  if !(token == d.apiToken) then (.error .unauthorized, [])
  else if !d.geminiConfigured then
    (.error (.configError "Erro de Configuração do Gemini. Verifique a chave API."), [])
  else
    match buildConversation history query with
    | .error pe => (.error (.uncaught pe), [])
    | .ok conv =>
      match d.provider conv with
      | .error m => (.error (.apiError ("Erro na API do Gemini: " ++ m)), [.providerCall])
      | .ok resp1 =>
        match resp1.function_calls with
        | [] => (.ok ⟨resp1.text, Option.none⟩, [.providerCall])
        | fc :: _ =>
          match dispatch d.calendarService d.nowIso fc.name fc.args with
          | .error pe =>
            (.error (.internalAgent ("Erro interno do agente: " ++ pyErrStr pe)),
             [.providerCall])
          | .ok r =>
            let conv2 := conv ++ [resp1.candidateContent, Content.toolMsg fc.name r.1]
            match d.provider conv2 with
            | .error m =>
              (.error (.apiError ("Erro na API do Gemini: " ++ m)),
               .providerCall :: r.2 ++ [.providerCall])
            | .ok resp2 =>
              (.ok ⟨resp2.text, some fc.name⟩, .providerCall :: r.2 ++ [.providerCall])

-- ---------------------------------------------------------------------------
-- The /events endpoint (main.py lines 222-231)
-- ---------------------------------------------------------------------------

/-- The `/events` endpoint: after auth, lists up to 20 events and checks
`"error" in result[0]` — indexing that raises `IndexError` when the
backend returned zero events. -/
def get_events (apiToken : String) (svc : Option Gateway) (nowIso : String)
    (token : String) : Except HttpErr PyObj :=
  if !(token == apiToken) then .error .unauthorized
  else
    let result := (list_calendar_events svc nowIso (.int 20) PyObj.none PyObj.none).1
    match result with
    | [] => .error (.uncaught .indexError)
    | first :: _ =>
      match pyContains "error" first with
      | .error e => .error (.uncaught e)
      | .ok true =>
        match pySubscript first "error" with
        | .error e => .error (.uncaught e)
        | .ok detail => .error (.http500 detail)
      | .ok false => .ok (.dict [("events", .list result)])

-- ---------------------------------------------------------------------------
-- Free-Slot Finder
-- ---------------------------------------------------------------------------

/-- Modelled from the spec: the Free-Slot Finder of spec section 4.3 has no
implementation under src/ (src/main.py contains no slot-finding code), so it
is embedded from the spec's own algorithm text: a cursor starts at the
reference instant; for each busy interval in order, if the gap up to the
interval's start fits the duration, return the slot immediately; otherwise
advance the cursor to the interval's end when that is later; after the last
interval return the slot at the cursor.  Instants are minutes as integers. -/
def findSlot : List (Int × Int) → Int → Int → Int × Int
  | [], freeFrom, dur => (freeFrom, freeFrom + dur)
  | iv :: rest, freeFrom, dur =>
    if iv.1 - freeFrom ≥ dur then (freeFrom, freeFrom + dur)
    else findSlot rest (if iv.2 > freeFrom then iv.2 else freeFrom) dur

-- ---------------------------------------------------------------------------
-- Trace observations
-- ---------------------------------------------------------------------------

def isProviderCall : Event → Bool
  | .providerCall => true
  | _ => false

def isToolExec : Event → Bool
  | .toolExec _ _ => true
  | _ => false

/-- An event that is neither a provider call nor a tool execution (i.e. a
raw gateway operation). -/
def evOk (e : Event) : Bool := !(isProviderCall e) && !(isToolExec e)

/-- Number of events in a trace satisfying `p`. -/
def countEv (p : Event → Bool) (t : List Event) : Nat := (t.filter p).length

/-- A calendar backend whose every operation raises. -/
def gwAllFail : Gateway :=
  { listEvents := fun _ _ _ => .error "offline"
    insertEvent := fun _ => .error "offline"
    deleteEvent := fun _ => .error "offline"
    getEvent := fun _ => .error "offline"
    updateEvent := fun _ _ => .error "offline" }

/-- A calendar backend that reports zero events. -/
def gwZeroEvents : Gateway :=
  { gwAllFail with listEvents := fun _ _ _ => .ok [] }

def respNoCalls : GenResponse :=
  { function_calls := []
    text := "resposta direta"
    candidateContent := .model "cand-a" }

def respFinal : GenResponse :=
  { function_calls := []
    text := "resposta final"
    candidateContent := .model "cand-b" }

def respDelNoId : GenResponse :=
  { function_calls := [⟨"delete_calendar_event", []⟩]
    text := "chamando ferramenta"
    candidateContent := .model "cand-c" }

def respDelById : GenResponse :=
  { function_calls := [⟨"delete_calendar_event", [("event_id", .str "ev123")]⟩]
    text := "chamando ferramenta"
    candidateContent := .model "cand-d" }

def respTwoCalls : GenResponse :=
  { function_calls := [⟨"list_calendar_events", []⟩,
      ⟨"add_calendar_event",
        [("summary", .str "x"), ("start_datetime", .str "s"), ("end_datetime", .str "e")]⟩]
    text := "chamando ferramentas"
    candidateContent := .model "cand-e" }

/-- A provider that answers `first` to a fresh conversation (one turn) and
`respFinal` to any longer conversation. -/
def twoPhase (first : GenResponse) : List Content → Except String GenResponse :=
  fun c => if c.length == 1 then .ok first else .ok respFinal

def baseDeps (first : GenResponse) : ChatDeps :=
  { apiToken := "tok"
    geminiConfigured := true
    calendarService := some gwAllFail
    nowIso := "2025-01-01T00:00:00"
    provider := twoPhase first }

def wDirectDeps : ChatDeps := baseDeps respNoCalls

def wDelNoIdDeps : ChatDeps := baseDeps respDelNoId

def wDelFailDeps : ChatDeps := baseDeps respDelById

def wTwoCallsDeps : ChatDeps := baseDeps respTwoCalls

end Agenda

namespace Agenda

-- ---------------------------------------------------------------------------
-- Counting lemmas
-- ---------------------------------------------------------------------------

theorem countEv_nil (p : Event → Bool) : countEv p [] = 0 := rfl

theorem countEv_cons (p : Event → Bool) (e : Event) (l : List Event) :
    countEv p (e :: l) = (if p e then 1 else 0) + countEv p l := by
  simp only [countEv, List.filter_cons]
  split <;> simp [Nat.add_comm]

theorem countEv_append (p : Event → Bool) (a b : List Event) :
    countEv p (a ++ b) = countEv p a + countEv p b := by
  simp [countEv, List.filter_append]

theorem countEv_take_le (p : Event → Bool) (l : List Event) (n : Nat) :
    countEv p (l.take n) ≤ countEv p l :=
  ((List.take_sublist n l).filter p).length_le

theorem countEv_zero_of_all (p : Event → Bool) (l : List Event)
    (h : l.all (fun e => !(p e)) = true) : countEv p l = 0 := by
  have : l.filter p = [] := by
    rw [List.filter_eq_nil_iff]
    intro a ha
    have := (List.all_eq_true.mp h) a ha
    simp at this
    simp [this]
  simp [countEv, this]

theorem all_evOk_provider (l : List Event) (h : l.all evOk = true) :
    countEv isProviderCall l = 0 := by
  refine countEv_zero_of_all _ _ ?_
  rw [List.all_eq_true] at h ⊢
  intro e he
  have := h e he
  simp [evOk] at this
  simp [this.1]

theorem all_evOk_tool (l : List Event) (h : l.all evOk = true) :
    countEv isToolExec l = 0 := by
  refine countEv_zero_of_all _ _ ?_
  rw [List.all_eq_true] at h ⊢
  intro e he
  have := h e he
  simp [evOk] at this
  simp [this.2]

-- ---------------------------------------------------------------------------
-- The tool functions emit only gateway events
-- ---------------------------------------------------------------------------

theorem list_calendar_events_evOk (svc : Option Gateway) (now : String)
    (a b c : PyObj) : ((list_calendar_events svc now a b c).2).all evOk = true := by
  unfold list_calendar_events
  try dsimp only
  repeat' split
  all_goals rfl

theorem add_calendar_event_evOk (svc : Option Gateway) (a b c d : PyObj) :
    ((add_calendar_event svc a b c d).2).all evOk = true := by
  unfold add_calendar_event
  try dsimp only
  repeat' split
  all_goals rfl

theorem delete_calendar_event_evOk (svc : Option Gateway) (eid : PyObj) :
    ((delete_calendar_event svc eid).2).all evOk = true := by
  unfold delete_calendar_event
  try dsimp only
  repeat' split
  all_goals rfl

theorem modify_calendar_event_evOk (svc : Option Gateway) (a b c d e : PyObj) :
    ((modify_calendar_event svc a b c d e).2).all evOk = true := by
  unfold modify_calendar_event
  try dsimp only
  repeat' split
  all_goals rfl

-- ---------------------------------------------------------------------------
-- Dispatch event characterization
-- ---------------------------------------------------------------------------

theorem dispatch_ok_shape (svc : Option Gateway) (now name : String)
    (args : List (String × PyObj)) (out : PyObj) (evs : List Event)
    (h : dispatch svc now name args = .ok (out, evs)) :
    evs = [] ∨ ∃ ge, ge.all evOk = true ∧ evs = .toolExec name args :: ge := by
  unfold dispatch at h
  split at h
  · split at h
    · simp only [Except.ok.injEq, Prod.mk.injEq] at h
      exact Or.inr ⟨_, list_calendar_events_evOk _ _ _ _ _, h.2.symm⟩
    · exact absurd h (by simp)
  · split at h
    · split at h
      · split at h
        · simp only [Except.ok.injEq, Prod.mk.injEq] at h
          exact Or.inr ⟨_, add_calendar_event_evOk _ _ _ _ _, h.2.symm⟩
        · exact absurd h (by simp)
      · exact absurd h (by simp)
    · split at h
      · split at h
        · exact absurd h (by simp)
        · split at h
          · simp only [Except.ok.injEq, Prod.mk.injEq] at h
            exact Or.inr ⟨_, delete_calendar_event_evOk _ _, h.2.symm⟩
          · exact absurd h (by simp)
      · split at h
        · split at h
          · exact absurd h (by simp)
          · split at h
            · simp only [Except.ok.injEq, Prod.mk.injEq] at h
              exact Or.inr ⟨_, modify_calendar_event_evOk _ _ _ _ _ _, h.2.symm⟩
            · exact absurd h (by simp)
        · simp only [Except.ok.injEq, Prod.mk.injEq] at h
          exact Or.inl h.2.symm

-- ---------------------------------------------------------------------------
-- Chat trace shape
-- ---------------------------------------------------------------------------

theorem chat_trace_shape (d : ChatDeps) (q tok : String) (hist : Option String) :
    (chat d q tok hist).2 = [] ∨ (chat d q tok hist).2 = [Event.providerCall] ∨
    ∃ evs, countEv isProviderCall evs = 0 ∧ countEv isToolExec evs ≤ 1 ∧
      (chat d q tok hist).2 = Event.providerCall :: evs ++ [Event.providerCall] := by
  unfold chat
  split
  · exact Or.inl rfl
  · split
    · exact Or.inl rfl
    · split
      · exact Or.inl rfl
      · split
        · exact Or.inr (Or.inl rfl)
        · split
          · exact Or.inr (Or.inl rfl)
          · rename_i fc tail hfc
            split
            · exact Or.inr (Or.inl rfl)
            · rename_i r hd
              refine Or.inr (Or.inr ?_)
              obtain ⟨out, evs⟩ := r
              rcases dispatch_ok_shape _ _ _ _ _ _ hd with he | ⟨ge, hge, he⟩
              · subst he
                refine ⟨[], rfl, by simp [countEv], ?_⟩
                dsimp only
                split <;> rfl
              · subst he
                refine ⟨Event.toolExec fc.name fc.args :: ge, ?_, ?_, ?_⟩
                · rw [countEv_cons]
                  simp [isProviderCall, all_evOk_provider ge hge]
                · rw [countEv_cons]
                  simp [isToolExec, all_evOk_tool ge hge]
                · dsimp only
                  split <;> rfl

-- ---------------------------------------------------------------------------
-- After-the-second-provider-call lemma
-- ---------------------------------------------------------------------------

theorem after_second_provider (evs : List Event)
    (h : countEv isProviderCall evs = 0) (n : Nat)
    (h2 : 2 ≤ countEv isProviderCall
      ((Event.providerCall :: evs ++ [Event.providerCall]).take n)) :
    countEv isToolExec ((Event.providerCall :: evs ++ [Event.providerCall]).drop n) = 0 := by
  by_cases hn : (Event.providerCall :: evs ++ [Event.providerCall]).length ≤ n
  · rw [List.drop_eq_nil_of_le hn]
    rfl
  · exfalso
    push_neg at hn
    have hlen : (Event.providerCall :: evs ++ [Event.providerCall]).length
        = evs.length + 2 := by simp
    have hle : n ≤ (Event.providerCall :: evs).length := by
      simp only [List.length_cons]
      omega
    have hsplit : (Event.providerCall :: evs ++ [Event.providerCall]).take n
        = (Event.providerCall :: evs).take n := by
      rw [show Event.providerCall :: evs ++ [Event.providerCall]
          = (Event.providerCall :: evs) ++ [Event.providerCall] from rfl]
      exact List.take_append_of_le_length hle
    rw [hsplit] at h2
    have hb := countEv_take_le isProviderCall (Event.providerCall :: evs) n
    have hc : countEv isProviderCall (Event.providerCall :: evs) = 1 := by
      rw [countEv_cons, h]
      rfl
    omega

-- ---------------------------------------------------------------------------
-- Claim theorems
-- ---------------------------------------------------------------------------

/-- C1: every invocation of the chat orchestration makes exactly 0, 1 or 2
provider calls, executes at most one tool, and any tool execution lies
strictly before the point at which the second provider call has happened
(no prefix of the trace holding two provider calls is followed by a tool
execution). -/
theorem chat_call_bounds (d : ChatDeps) (q tok : String) (hist : Option String) :
    (countEv isProviderCall (chat d q tok hist).2 = 0 ∨
     countEv isProviderCall (chat d q tok hist).2 = 1 ∨
     countEv isProviderCall (chat d q tok hist).2 = 2) ∧
    countEv isToolExec (chat d q tok hist).2 ≤ 1 ∧
    ∀ n, 2 ≤ countEv isProviderCall ((chat d q tok hist).2.take n) →
      countEv isToolExec ((chat d q tok hist).2.drop n) = 0 := by
  rcases chat_trace_shape d q tok hist with h | h | ⟨evs, h0, h1, h⟩ <;> rw [h]
  · refine ⟨Or.inl rfl, by decide, ?_⟩
    intro n hn
    simp [countEv] at hn
  · refine ⟨Or.inr (Or.inl rfl), by decide, ?_⟩
    intro n hn
    have hle := countEv_take_le isProviderCall [Event.providerCall] n
    have hone : countEv isProviderCall [Event.providerCall] = 1 := rfl
    omega
  · refine ⟨?_, ?_, fun n hn => after_second_provider evs h0 n hn⟩
    · refine Or.inr (Or.inr ?_)
      rw [countEv_append, countEv_cons, h0]
      rfl
    · have hz : countEv isToolExec [Event.providerCall] = 0 := rfl
      rw [countEv_append, countEv_cons, hz]
      simp [isToolExec]
      omega

/-- Witness for C1: the bounds instantiated at concrete oracles. -/
theorem chat_call_bounds_witness :
    (countEv isProviderCall (chat wDirectDeps "pergunta" "tok" Option.none).2 = 0 ∨
     countEv isProviderCall (chat wDirectDeps "pergunta" "tok" Option.none).2 = 1 ∨
     countEv isProviderCall (chat wDirectDeps "pergunta" "tok" Option.none).2 = 2) ∧
    countEv isToolExec (chat wDirectDeps "pergunta" "tok" Option.none).2 ≤ 1 ∧
    ∀ n, 2 ≤ countEv isProviderCall
        ((chat wDirectDeps "pergunta" "tok" Option.none).2.take n) →
      countEv isToolExec ((chat wDirectDeps "pergunta" "tok" Option.none).2.drop n) = 0 :=
  chat_call_bounds wDirectDeps "pergunta" "tok" Option.none

/-- C4: when the provider's first response contains no tool call, `chat`
returns the provider's text paired with no operation, and the trace is the
single provider call — in particular no Calendar Gateway operation and no
tool execution occur. -/
theorem chat_no_tool_call_returns_text (d : ChatDeps) (q tok : String)
    (hist : Option String) (conv : List Content) (resp1 : GenResponse)
    (ht : (tok == d.apiToken) = true) (hg : d.geminiConfigured = true)
    (hb : buildConversation hist q = .ok conv)
    (h1 : d.provider conv = .ok resp1)
    (hf : resp1.function_calls = []) :
    chat d q tok hist = (.ok ⟨resp1.text, Option.none⟩, [Event.providerCall]) := by
  unfold chat
  simp only [ht, hg, Bool.not_true, Bool.false_eq_true, if_false, hb, h1, hf]

/-- Witness for C4: a provider that never requests a tool yields its text,
no operation, and a one-event trace. -/
theorem chat_no_tool_call_returns_text_witness :
    chat wDirectDeps "pergunta" "tok" Option.none
      = (.ok ⟨"resposta direta", Option.none⟩, [Event.providerCall]) :=
  chat_no_tool_call_returns_text wDirectDeps "pergunta" "tok" Option.none
    [userTurn "pergunta"] respNoCalls rfl rfl rfl rfl rfl

theorem first_only_of_shape (name : String) (args : List (String × PyObj))
    (evs : List Event)
    (h : evs = [] ∨ ∃ ge, ge.all evOk = true ∧ evs = Event.toolExec name args :: ge) :
    countEv isToolExec (Event.providerCall :: evs ++ [Event.providerCall]) ≤ 1 ∧
    ∀ e ∈ Event.providerCall :: evs ++ [Event.providerCall],
      isToolExec e = true → e = Event.toolExec name args := by
  rcases h with rfl | ⟨ge, hge, rfl⟩
  · refine ⟨by decide, ?_⟩
    intro e he hx
    simp at he
    rcases he with rfl | rfl <;> simp [isToolExec] at hx
  · constructor
    · have hz : countEv isToolExec [Event.providerCall] = 0 := rfl
      rw [countEv_append, countEv_cons, countEv_cons, all_evOk_tool ge hge, hz]
      simp [isToolExec]
    · intro e he hx
      simp at he
      rcases he with rfl | rfl | hin | rfl
      · simp [isToolExec] at hx
      · rfl
      · have hok := (List.all_eq_true.mp hge) e hin
        simp [evOk] at hok
        rw [hok.2] at hx
        exact absurd hx (by simp)
      · simp [isToolExec] at hx

/-- C6: when the provider's first response requests one or more tool calls,
the orchestrator executes at most one tool, and any tool execution in the
trace is exactly the first requested call — same function name and same
arguments; the later requests are never executed. -/
theorem chat_acts_on_first_tool_call_only (d : ChatDeps) (q tok : String)
    (hist : Option String) (conv : List Content) (resp1 : GenResponse)
    (fc : FunctionCall) (rest : List FunctionCall)
    (ht : (tok == d.apiToken) = true) (hg : d.geminiConfigured = true)
    (hb : buildConversation hist q = .ok conv)
    (h1 : d.provider conv = .ok resp1)
    (hf : resp1.function_calls = fc :: rest) :
    countEv isToolExec (chat d q tok hist).2 ≤ 1 ∧
    ∀ e ∈ (chat d q tok hist).2, isToolExec e = true →
      e = Event.toolExec fc.name fc.args := by
  unfold chat
  simp only [ht, hg, Bool.not_true, Bool.false_eq_true, if_false, hb, h1, hf]
  split
  · refine ⟨by dsimp only; decide, ?_⟩
    intro e he hx
    dsimp only at he
    simp at he
    subst he
    simp [isToolExec] at hx
  · rename_i r hd
    obtain ⟨out, evs⟩ := r
    have hshape := dispatch_ok_shape _ _ _ _ _ _ hd
    dsimp only
    split
    · exact first_only_of_shape fc.name fc.args evs hshape
    · exact first_only_of_shape fc.name fc.args evs hshape

/-- Witness for C6: a provider returning two tool calls; only the first
(`list_calendar_events`) can ever appear as an executed tool. -/
theorem chat_acts_on_first_tool_call_only_witness :
    countEv isToolExec (chat wTwoCallsDeps "pergunta" "tok" Option.none).2 ≤ 1 ∧
    ∀ e ∈ (chat wTwoCallsDeps "pergunta" "tok" Option.none).2, isToolExec e = true →
      e = Event.toolExec "list_calendar_events" [] :=
  chat_acts_on_first_tool_call_only wTwoCallsDeps "pergunta" "tok" Option.none
    [userTurn "pergunta"] respTwoCalls ⟨"list_calendar_events", []⟩
    [⟨"add_calendar_event",
      [("summary", .str "x"), ("start_datetime", .str "s"), ("end_datetime", .str "e")]⟩]
    rfl rfl rfl rfl rfl

/-- Counterexample for C3: with a provider that requests
`delete_calendar_event` with no `event_id`, the orchestration does not
produce a ToolResult error payload and does not complete: binding the
arguments raises `TypeError`, the endpoint's generic handler converts it
into an internal-agent HTTP 500, and the trace shows a single provider call
with no tool execution and no gateway operation. -/
theorem chat_delete_without_id_fails_500 :
    chat wDelNoIdDeps "apague a reuniao de amanha" "tok" Option.none
      = (.error (.internalAgent "Erro interno do agente: TypeError"),
         [Event.providerCall]) := rfl

/-- C3 (amended): whenever the provider requests `delete_calendar_event` or
`modify_calendar_event` without an `event_id` argument, the orchestrator
does not synthesize an identifier and neither executes a tool nor performs
any gateway operation: the argument binding raises `TypeError`, which the
generic handler converts into an internal-agent HTTP 500 failing the
request; the trace is the single provider call. -/
theorem chat_delete_modify_without_id (d : ChatDeps) (q tok : String)
    (hist : Option String) (conv : List Content) (resp1 : GenResponse)
    (fc : FunctionCall) (rest : List FunctionCall)
    (ht : (tok == d.apiToken) = true) (hg : d.geminiConfigured = true)
    (hb : buildConversation hist q = .ok conv)
    (h1 : d.provider conv = .ok resp1)
    (hf : resp1.function_calls = fc :: rest)
    (hname : fc.name = "delete_calendar_event" ∨ fc.name = "modify_calendar_event")
    (hnoid : dictFind fc.args "event_id" = Option.none) :
    chat d q tok hist
      = (.error (.internalAgent "Erro interno do agente: TypeError"),
         [Event.providerCall]) := by
  have hd : dispatch d.calendarService d.nowIso fc.name fc.args = .error .typeError := by
    rcases hname with hn | hn <;>
      (rw [hn]; unfold dispatch;
       simp only [String.reduceBEq, Bool.false_eq_true, if_false, if_true, hnoid])
  unfold chat
  simp only [ht, hg, Bool.not_true, Bool.false_eq_true, if_false, hb, h1, hf, hd]
  rfl

/-- Witness for C3 (amended): the no-id delete request at concrete oracles. -/
theorem chat_delete_modify_without_id_witness :
    chat wDelNoIdDeps "apague" "tok" Option.none
      = (.error (.internalAgent "Erro interno do agente: TypeError"),
         [Event.providerCall]) :=
  chat_delete_modify_without_id wDelNoIdDeps "apague" "tok" Option.none
    [userTurn "apague"] respDelNoId ⟨"delete_calendar_event", []⟩ []
    rfl rfl rfl rfl rfl (Or.inl rfl) rfl

/-- C5: when the gateway raises while `delete_calendar_event` runs, the
tool converts the failure into a structured error payload instead of
raising; that payload is the tool turn of the second provider call, and the
orchestration completes, returning the second response's text together with
the operation name. -/
theorem chat_tool_failure_completes (d : ChatDeps) (q tok : String)
    (hist : Option String) (conv : List Content) (resp1 resp2 : GenResponse)
    (fc : FunctionCall) (rest : List FunctionCall) (gw : Gateway)
    (v : PyObj) (emsg : String)
    (ht : (tok == d.apiToken) = true) (hg : d.geminiConfigured = true)
    (hb : buildConversation hist q = .ok conv)
    (h1 : d.provider conv = .ok resp1)
    (hf : resp1.function_calls = fc :: rest)
    (hn : fc.name = "delete_calendar_event")
    (ha : fc.args = [("event_id", v)])
    (hs : d.calendarService = some gw)
    (hdel : gw.deleteEvent v = .error emsg)
    (h2 : d.provider (conv ++ [resp1.candidateContent,
        Content.toolMsg "delete_calendar_event"
          (errDict ("Erro ao excluir evento (ID: " ++ pyStr v ++ "): " ++ emsg))])
      = .ok resp2) :
    chat d q tok hist = (.ok ⟨resp2.text, some "delete_calendar_event"⟩,
      [Event.providerCall, Event.toolExec "delete_calendar_event" [("event_id", v)],
       Event.gwDelete v, Event.providerCall]) := by
  have hdc : delete_calendar_event (some gw) v
      = (errDict ("Erro ao excluir evento (ID: " ++ pyStr v ++ "): " ++ emsg),
         [Event.gwDelete v]) := by
    simp only [delete_calendar_event, hdel]
  have hd : dispatch (some gw) d.nowIso "delete_calendar_event" [("event_id", v)]
      = .ok (errDict ("Erro ao excluir evento (ID: " ++ pyStr v ++ "): " ++ emsg),
        [Event.toolExec "delete_calendar_event" [("event_id", v)], Event.gwDelete v]) := by
    unfold dispatch
    rw [show dictFind [("event_id", v)] "event_id" = some v from rfl]
    simp only [String.reduceBEq, Bool.false_eq_true, if_false, hdc]
    rfl
  unfold chat
  simp only [ht, hg, Bool.not_true, Bool.false_eq_true, if_false, hb, h1, hf, hn, ha, hs, hd]
  simp only [h2]
  rfl

/-- Witness for C5: concrete oracles in which the gateway's delete raises;
the run completes with the final answer and the delete operation name. -/
theorem chat_tool_failure_completes_witness :
    chat wDelFailDeps "pergunta" "tok" Option.none
      = (.ok ⟨"resposta final", some "delete_calendar_event"⟩,
         [Event.providerCall,
          Event.toolExec "delete_calendar_event" [("event_id", .str "ev123")],
          Event.gwDelete (.str "ev123"), Event.providerCall]) :=
  chat_tool_failure_completes wDelFailDeps "pergunta" "tok" Option.none
    [userTurn "pergunta"] respDelById respFinal
    ⟨"delete_calendar_event", [("event_id", .str "ev123")]⟩ [] gwAllFail
    (.str "ev123") "offline" rfl rfl rfl rfl rfl rfl rfl rfl rfl rfl

/-- C7: an absent history and the sentinel history string `"null"` each
normalize to a conversation of exactly one turn, of role `user`, with the
query string as its content. -/
theorem normalize_absent_or_null_history (q : String) :
    buildConversation Option.none q = .ok [userTurn q] ∧
    buildConversation (some "null") q = .ok [userTurn q] :=
  ⟨rfl, rfl⟩

/-- Witness for C7: the single-turn conversations at a concrete query. -/
theorem normalize_absent_or_null_history_witness :
    buildConversation Option.none "o que tenho amanha" = .ok [userTurn "o que tenho amanha"] ∧
    buildConversation (some "null") "o que tenho amanha"
      = .ok [userTurn "o que tenho amanha"] :=
  normalize_absent_or_null_history "o que tenho amanha"

/-- C2: a history string whose structural parse (`json.loads`) fails is
treated exactly like an absent history: normalization does not raise, the
request does not fail, and the conversation is the single user turn carrying
the query. -/
theorem malformed_history_like_absent (s q : String)
    (h : json_loads s = .error ()) :
    buildConversation (some s) q = .ok [userTurn q] ∧
    buildConversation (some s) q = buildConversation Option.none q := by
  have hn : normalizeHistory (some s) = .ok [] := by
    unfold normalizeHistory
    dsimp only
    by_cases hc : (s != "" && s != "null") = true
    · rw [if_pos hc, h]
    · rw [if_neg hc]
  have hb : buildConversation (some s) q = .ok [userTurn q] := by
    unfold buildConversation
    rw [hn]
    rfl
  exact ⟨hb, hb.trans rfl⟩

/-- Witness for C2: an unparseable history string degrades to the
absent-history conversation. -/
theorem malformed_history_like_absent_witness :
    json_loads "historico quebrado" = .error () ∧
    (buildConversation (some "historico quebrado") "oi" = .ok [userTurn "oi"] ∧
     buildConversation (some "historico quebrado") "oi"
       = buildConversation Option.none "oi") :=
  ⟨rfl, malformed_history_like_absent "historico quebrado" "oi" rfl⟩

/-- C9: findSlot applied to an empty busy-interval list returns exactly the
slot starting at the reference instant with the requested duration. -/
theorem findSlot_empty_busy (ref dur : Int) (hpos : 0 < dur) :
    findSlot [] ref dur = (ref, ref + dur) := rfl

/-- Witness for C9: an empty busy list at 8:00 (480 min) for 30 minutes. -/
theorem findSlot_empty_busy_witness :
    0 < (30 : Int) ∧ findSlot [] 480 30 = (480, 510) :=
  ⟨by decide, findSlot_empty_busy 480 30 (by decide)⟩

/-- C10: when the calendar backend reports zero events, the events endpoint
does not return an empty list: its `"error" in result[0]` check indexes the
empty result, raising `IndexError`, so the request fails. -/
theorem get_events_zero_events_raises (apiToken nowIso token : String)
    (gw : Gateway)
    (ht : (token == apiToken) = true)
    (hl : gw.listEvents (.str (nowIso ++ "Z")) PyObj.none (.int 20) = .ok []) :
    get_events apiToken (some gw) nowIso token = .error (.uncaught .indexError) := by
  have hle : (list_calendar_events (some gw) nowIso (.int 20) PyObj.none PyObj.none).1
      = [] := by
    simp only [list_calendar_events, pyTruthy, Bool.false_eq_true, if_false, hl]
    rfl
  unfold get_events
  simp only [ht, Bool.not_true, Bool.false_eq_true, if_false]
  rw [hle]

/-- Witness for C10: a backend returning zero events makes the endpoint
raise IndexError. -/
theorem get_events_zero_events_raises_witness :
    get_events "tok" (some gwZeroEvents) "2025-01-01T00:00:00" "tok"
      = .error (.uncaught .indexError) :=
  get_events_zero_events_raises "tok" "2025-01-01T00:00:00" "tok" gwZeroEvents rfl rfl

end Agenda
